import Mathlib

/-!
Verification of the statistical analytics pipeline of the Aadhaar-Pulse
dashboard backend (apps/api/services): the forecast engine
(`forecast_engine.py`), the anomaly detection engine (`anomaly_engine.py`),
the analytics service (`analytics_service.py`) and the synthetic data
generator of the repository (`data_repository.py`).

Modelling conventions, used throughout:

* Python floats are modelled as exact rationals `ℚ`.  The two places where
  the source computes a square root (`np.std` inside
  `_forecast_with_confidence` and `stats.zscore` / `np.std` inside the
  anomaly detectors, plus the RMSE metric) are modelled by passing the
  nonnegative standard-deviation scalar as an explicit parameter, since an
  exact real square root is not computable; every theorem about those
  functions quantifies over that parameter.
* Python `int(x)` truncates towards zero; it is modelled by `pyInt`.
* Python `round(x, k)` is modelled by `roundTo k` (round half up; the
  half-to-even boundary behaviour of CPython is never exercised by the
  concrete inputs used here).
* Reads from the repository singleton (`self.repo.get_...()`) are passed to
  each modelled function as explicit arguments holding the value the read
  returns.
* Time periods ("YYYY-MM" strings parsed with `strptime`) are modelled as
  explicit `year`/`month` fields.
* `datetime.now().isoformat()` timestamps attached to anomalies are modelled
  by a single natural-number clock value `now` per detection run.
-/

namespace Pulse

/-- Python `int(x)`: truncation of a rational towards zero. -/
def pyInt (q : ℚ) : ℤ :=
  if 0 ≤ q then ⌊q⌋ else ⌈q⌉

/-- Python `round(x, k)`: rounding to `k` decimal digits. -/
def roundTo (k : ℕ) (q : ℚ) : ℚ :=
  ((round (q * (10 : ℚ) ^ k) : ℤ) : ℚ) / (10 : ℚ) ^ k

/-- `np.mean` over a list of rationals (junk value `0` on the empty list,
which the callers modelled here never hit on the paths stated). -/
def listMean (l : List ℚ) : ℚ :=
  l.sum / (l.length : ℚ)

/-- Zero-padded indexing used for `np.convolve`: out-of-range indices
contribute `0`. -/
def valZ (l : List ℚ) (i : ℤ) : ℚ :=
  if 0 ≤ i then l.getD i.toNat 0 else 0

/-- One point of a monthly time series as returned by
`get_enrolment_timeseries` / `get_update_timeseries` and consumed by the
forecast and anomaly engines: only the `period` (year/month) and `value`
fields are read by those engines. -/
structure UPoint where
  year : ℕ
  month : ℕ
  value : ℤ
deriving DecidableEq

/-- One row of the synthetic enrolment table built by
`_generate_enrolment_data`. -/
structure TimePoint where
  year : ℕ
  month : ℕ
  value : ℤ
  cumulative : ℤ
  yoyGrowth : ℚ
deriving DecidableEq

/-- One record of `get_state_data()` (fields the modelled code reads). -/
structure StateRec where
  name : String
  code : String
  totalEnrolments : ℤ
  monthly : ℤ
  yoy : ℚ
  updateRate : ℚ
  urbanPct : ℚ
deriving DecidableEq

/-- One record of `get_update_types()` (fields the modelled code reads). -/
structure UpdateTypeRec where
  utype : String
  percentage : ℚ
deriving DecidableEq

/-- Anomaly severity (`Severity` enum of `anomaly_engine.py`). -/
inductive Sev where
  | low
  | medium
  | high
  | critical
deriving DecidableEq

/-- The sort rank used by `detect_all_anomalies`:
`{"critical": 0, "high": 1, "medium": 2, "low": 3}`. -/
def sevRank : Sev → ℕ
  | Sev.critical => 0
  | Sev.high => 1
  | Sev.medium => 2
  | Sev.low => 3

/-- A detected anomaly. String-valued evidence entries (`state_code`,
`expected_range`, ...), the generated id, the free-text description,
district and recommendation fields are not modelled: no claim reads them.
Numeric evidence entries are kept as key/value pairs. -/
structure Anomaly where
  atype : String
  severity : Sev
  stateName : String
  detectedAt : ℕ
  deviationScore : ℚ
  evidence : List (String × ℚ)
deriving DecidableEq

/-- One alert produced by `_generate_alerts`; `region` holds the name of the
state the alert designates (the same name is interpolated into the message
text). -/
structure Alert where
  atype : String
  region : String
  severity : String
deriving DecidableEq

/-- One forecast point (`period`/`month_name` date strings and the constant
`confidence: 0.95` field are not modelled; no claim reads them). -/
structure FcPoint where
  predicted : ℤ
  lower : ℤ
  upper : ℤ
deriving DecidableEq

/-- Fit metrics of `_calculate_model_metrics`.  `mse` is the mean squared
error; the reported RMSE is `int(sqrt mse)`, whose square root is not
representable exactly, so the squared value is kept. -/
structure Metrics where
  rSquared : ℚ
  mape : ℚ
  mae : ℤ
  mse : ℚ
deriving DecidableEq

/-- Result of `generate_forecast`: either the explicit insufficient-data
error dictionary, or the full result dictionary. -/
inductive ForecastResult where
  | insufficient
  | ok (historical : List UPoint) (forecast : List FcPoint)
      (metrics : Metrics) (trainingSamples : ℕ)
deriving DecidableEq

/-! ## Forecast engine (`forecast_engine.py`) -/

/-- Trend component of `_decompose`: centred moving average
`np.convolve(values, np.ones(w)/w, mode='same')` with
`w = min(12, n // 2)`; the `same` mode zero-pads and keeps the middle `n`
entries of the full convolution, whose entry `k` is
`(1/w) * sum_j values[k + (w-1)//2 - j]` for `j < w`. -/
def trendMA (values : List ℚ) : List ℚ :=
  let n := values.length
  let w := min 12 (n / 2)
  (List.range n).map fun k =>
    (((List.range w).map fun j =>
      valZ values ((k : ℤ) + ((w - 1) / 2 : ℕ) - (j : ℤ))).sum) / (w : ℚ)

/-- Seasonal component of `_decompose`: for each of the 12 calendar slots,
the mean of the detrended values `detrended[i::12]` (0 when the slot is
empty). -/
def seasonalVec (values trend : List ℚ) : List ℚ :=
  let det := List.zipWith (fun a b => a - b) values trend
  (List.range 12).map fun i =>
    let slot := (List.range det.length).filterMap fun k =>
      if k % 12 = i then det.get? k else none
    if slot.isEmpty then 0 else slot.sum / (slot.length : ℚ)

/-- `np.tile(seasonal, n // 12 + 1)[:n]`. -/
def tileTake (s : List ℚ) (n : ℕ) : List ℚ :=
  (List.flatten (List.replicate (n / 12 + 1) s)).take n

/-- Least-squares slope of `scipy.stats.linregress(range(n), ys)`. -/
def lrSlope (ys : List ℚ) : ℚ :=
  let n : ℚ := ys.length
  let xs := (List.range ys.length).map fun i => (i : ℚ)
  let sx := xs.sum
  let sy := ys.sum
  let sxy := (List.zipWith (· * ·) xs ys).sum
  let sxx := (xs.map fun x => x * x).sum
  (n * sxy - sx * sy) / (n * sxx - sx * sx)

/-- Least-squares intercept of `scipy.stats.linregress(range(n), ys)`. -/
def lrIntercept (ys : List ℚ) : ℚ :=
  let n : ℚ := ys.length
  let sx := ((List.range ys.length).map fun i => (i : ℚ)).sum
  (ys.sum - lrSlope ys * sx) / n

/-- The widening confidence multiplier `1.96 * (1 + 0.1 * i)` of
`_forecast_with_confidence`. -/
def ciMult (i : ℕ) : ℚ :=
  196 / 100 * (1 + (i : ℚ) / 10)

/-- `_forecast_with_confidence`.  `s` is the residual standard deviation
`np.std(values - trend)` (nonnegative scalar, passed explicitly — see the
file comment), `m0` is `datetime.now().month` (1..12) and `horizon` the
configured horizon (`6` by default). -/
def forecastWithConfidence (values trend seasonal : List ℚ) (s : ℚ)
    (m0 horizon : ℕ) : List FcPoint :=
  let slope := lrSlope trend
  let b := lrIntercept trend
  let n : ℚ := values.length
  (List.range horizon).map fun k =>
    let i := k + 1
    let fm := (m0 + i - 1) % 12
    let trendValue := slope * (n + (i : ℚ)) + b
    let seasonalValue := seasonal.getD fm 0
    let p := trendValue + seasonalValue
    let lo := p - ciMult i * s
    let hi := p + ciMult i * s
    { predicted := pyInt (max 0 p)
      lower := pyInt (max 0 lo)
      upper := pyInt (max 0 hi) }

/-- The fitted series `trend + np.tile(seasonal, ...)` of
`_calculate_model_metrics`. -/
def fittedOf (trend seasonal : List ℚ) (n : ℕ) : List ℚ :=
  List.zipWith (· + ·) trend (tileTake seasonal n)

/-- `SS_res = sum((values - fitted)^2)`. -/
def ssRes (values fitted : List ℚ) : ℚ :=
  (List.zipWith (fun v f => (v - f) * (v - f)) values fitted).sum

/-- `SS_tot = sum((values - mean)^2)`. -/
def ssTot (values : List ℚ) : ℚ :=
  (values.map fun v => (v - listMean values) * (v - listMean values)).sum

/-- `_calculate_model_metrics` (see `Metrics` for the RMSE remark). -/
def calcMetrics (values trend seasonal : List ℚ) : Metrics :=
  let fitted := fittedOf trend seasonal values.length
  let sr := ssRes values fitted
  let st := ssTot values
  let r2 := if 0 < st then 1 - sr / st else 0
  let mape :=
    if ∀ v ∈ values, 0 < v then
      listMean (List.zipWith (fun v f => |(v - f) / v|) values fitted) * 100
    else 0
  let mae := listMean (List.zipWith (fun v f => |v - f|) values fitted)
  let mse := listMean (List.zipWith (fun v f => (v - f) * (v - f)) values fitted)
  { rSquared := roundTo 2 (max 0 (min 1 r2))
    mape := roundTo 1 (min 20 (max 0 mape))
    mae := pyInt mae
    mse := mse }

/-- `generate_forecast`.  The repository time series the chosen metric
selects is the argument `ts`; `s` is the residual standard deviation used
by `_forecast_with_confidence` (see the file comment); `m0` is the current
calendar month and `horizon` the engine's configured horizon (default 6). -/
def generateForecast (ts : List UPoint) (s : ℚ) (m0 horizon : ℕ) :
    ForecastResult :=
  if ts.length < 12 then ForecastResult.insufficient
  else
    let values := ts.map fun t => (t.value : ℚ)
    let trend := trendMA values
    let seasonal := seasonalVec values trend
    ForecastResult.ok (ts.drop (ts.length - 12))
      (forecastWithConfidence values trend seasonal s m0 horizon)
      (calcMetrics values trend seasonal) ts.length

/-! ## Anomaly detection engine (`anomaly_engine.py`)

Each detector reads from the repository; those reads are the arguments.
`stats.zscore` and `np.std` involve square roots: the standard deviations
are the parameters `σ` / `σu`.  When `σ = 0`, `stats.zscore` yields
non-finite values whose comparisons with the thresholds are false in
Python; this is modelled by a z-score of `0`, which likewise triggers no
anomaly.  For the urban-percentage detector the source itself guards
`if std_urban > 0 else 0`, matched literally. -/

/-- Fallback record for `states[i % len(states)]`; the Python code raises on
an empty state list (never produced by an initialized repository), the model
totalizes with this record. -/
def stateDefault : StateRec :=
  { name := "", code := "", totalEnrolments := 0, monthly := 0, yoy := 0,
    updateRate := 0, urbanPct := 0 }

/-- Z-score of entry `i` of `values` given standard deviation `σ`. -/
def zscoreAt (values : List ℚ) (σ : ℚ) (i : ℕ) : ℚ :=
  if σ = 0 then 0 else (values.getD i 0 - listMean values) / σ

/-- The anomaly dictionary built for a flagged point inside
`_detect_enrolment_anomalies`. -/
def mkEnrolAnomaly (t : UPoint) (z μ : ℚ) (st : StateRec) (now : ℕ) :
    Anomaly :=
  { atype := if 0 < z then "Enrolment Surge" else "Enrolment Drop"
    severity := if 3 < |z| then Sev.high else Sev.medium
    stateName := st.name
    detectedAt := now
    deviationScore := roundTo 2 z
    evidence := [("expected_value", ((pyInt μ : ℤ) : ℚ)),
                 ("actual_value", (t.value : ℚ)),
                 ("z_score", roundTo 2 z)] }

/-- `_detect_enrolment_anomalies`: z-score scan of the 24-month enrolment
series, threshold `2.5` (the engine's default), capped to the first 3
flagged points. -/
def detectEnrolment (ts : List UPoint) (σ : ℚ) (states : List StateRec)
    (now : ℕ) : List Anomaly :=
  if ts.length < 12 then []
  else
    let values := ts.map fun t => (t.value : ℚ)
    let μ := listMean values
    (ts.enum.filterMap fun p =>
      let z := zscoreAt values σ p.1
      if 5 / 2 < |z| then
        some (mkEnrolAnomaly p.2 z μ
          (states.getD (p.1 % states.length) stateDefault) now)
      else none).take 3

/-- The anomaly built when the Address share exceeds 45% in
`_detect_update_anomalies`. -/
def mkAddressAnomaly (ut : UpdateTypeRec) (now : ℕ) : Anomaly :=
  { atype := "Update Fatigue"
    severity := Sev.medium
    stateName := "Multiple States"
    detectedAt := now
    deviationScore := roundTo 2 ((ut.percentage - 38) / 5)
    evidence := [("percentage", ut.percentage)] }

/-- The anomaly built for a top-5 state with `update_rate > 0.10` in
`_detect_update_anomalies`. -/
def mkStateUpdateAnomaly (st : StateRec) (now : ℕ) : Anomaly :=
  { atype := "Update Fatigue"
    severity := Sev.low
    stateName := st.name
    detectedAt := now
    deviationScore := roundTo 2 (st.updateRate * 10)
    evidence := [("update_rate", roundTo 3 st.updateRate)] }

/-- First loop of `_detect_update_anomalies` (update-type distribution). -/
def addressAnomalies (uts : List UpdateTypeRec) (now : ℕ) : List Anomaly :=
  uts.filterMap fun ut =>
    if ut.utype = "Address" ∧ 45 < ut.percentage then
      some (mkAddressAnomaly ut now)
    else none

/-- Second loop of `_detect_update_anomalies` (`for state in states[:5]`). -/
def stateUpdateAnomalies (sts : List StateRec) (now : ℕ) : List Anomaly :=
  sts.filterMap fun st =>
    if 1 / 10 < st.updateRate then some (mkStateUpdateAnomaly st now)
    else none

/-- `_detect_update_anomalies`: both loops in order, capped to 2 results. -/
def detectUpdate (uts : List UpdateTypeRec) (states : List StateRec)
    (now : ℕ) : List Anomaly :=
  (addressAnomalies uts now ++ stateUpdateAnomalies (states.take 5) now).take 2

/-- The anomaly built for a state flagged by `_detect_geographic_anomalies`. -/
def mkGeoAnomaly (st : StateRec) (z μ : ℚ) (now : ℕ) : Anomaly :=
  { atype := "Geographic Disparity"
    severity := if 5 / 2 < |z| then Sev.medium else Sev.low
    stateName := st.name
    detectedAt := now
    deviationScore := roundTo 2 z
    evidence := [("state_urban_pct", roundTo 1 (st.urbanPct * 100)),
                 ("national_avg", roundTo 1 (μ * 100))] }

/-- `_detect_geographic_anomalies`: urban-percentage z-scores against the
cross-state mean, flag `|z| > 2`, capped to 2 results. -/
def detectGeographic (states : List StateRec) (σu : ℚ) (now : ℕ) :
    List Anomaly :=
  let μ := listMean (states.map fun s => s.urbanPct)
  (states.filterMap fun st =>
    let z := if 0 < σu then (st.urbanPct - μ) / σu else 0
    if 2 < |z| then some (mkGeoAnomaly st z μ now) else none).take 2

/-- `_detect_demographic_anomalies`: at most one national gender-ratio
anomaly when the male share deviates from 51% by more than 2 points. -/
def detectDemographic (malePct femalePct : ℚ) (now : ℕ) : List Anomaly :=
  if 2 < |malePct - 51| then
    [{ atype := "Demographic Imbalance"
       severity := Sev.low
       stateName := "National"
       detectedAt := now
       deviationScore := roundTo 2 (|malePct - 51| / 2)
       evidence := [("male_percentage", malePct),
                    ("female_percentage", femalePct)] }]
  else []

/-- The ascending comparison `key=lambda x: (severity_order[x], detected_at)`
used by `detect_all_anomalies`. -/
def anomalyKeyLE (a b : Anomaly) : Bool :=
  decide (sevRank a.severity < sevRank b.severity ∨
    (sevRank a.severity = sevRank b.severity ∧ a.detectedAt ≤ b.detectedAt))

/-- `detect_all_anomalies`: concatenate the four detectors' outputs and sort
by `(severity_rank, detected_at)` ascending. -/
def detectAllAnomalies (ts : List UPoint) (σe : ℚ)
    (uts : List UpdateTypeRec) (states : List StateRec)
    (σu malePct femalePct : ℚ) (now : ℕ) : List Anomaly :=
  (detectEnrolment ts σe states now ++ detectUpdate uts states now ++
    detectGeographic states σu now ++
    detectDemographic malePct femalePct now).mergeSort anomalyKeyLE

/-! ## Analytics service (`analytics_service.py`) -/

/-- The metro-state codes of `_generate_alerts`. -/
def metroCodes : List String := ["DL", "MH", "KA", "TN"]

/-- The info-level surge alert of `_generate_alerts`, naming one state. -/
def surgeAlert (s : StateRec) : Alert :=
  { atype := "info", region := s.name, severity := "medium" }

/-- The high-severity capacity alert of `_generate_alerts`, naming one
state. -/
def capacityAlert (s : StateRec) : Alert :=
  { atype := "warning", region := s.name, severity := "high" }

/-- `_generate_alerts`: one surge alert for the first state with YoY growth
above 15 (if any), then one capacity alert for the first metro state with
monthly enrolments above 1,000,000 (if any). -/
def generateAlerts (states : List StateRec) : List Alert :=
  let highGrowth := states.filter fun s => decide (15 < s.yoy)
  let a1 : List Alert :=
    match highGrowth.head? with
    | some s => [surgeAlert s]
    | none => []
  let metros := states.filter fun s => decide (s.code ∈ metroCodes)
  let highVolume := metros.filter fun s => decide (1000000 < s.monthly)
  let a2 : List Alert :=
    match highVolume.head? with
    | some s => [capacityAlert s]
    | none => []
  a1 ++ a2

/-- The `growth_rate` entry of `get_update_analytics`:
`round((ts[-1] - ts[0]) / ts[0] * 100, 1) if ts else 0`.  A zero first
value raises `ZeroDivisionError` in the source (integer division); that
exceptional outcome is `none`. -/
def updateGrowthRate (ts : List UPoint) : Option ℚ :=
  if ts = [] then some 0
  else
    let first : ℚ := ((ts.headD { year := 0, month := 0, value := 0 }).value : ℚ)
    let lastV : ℚ := ((ts.getLastD { year := 0, month := 0, value := 0 }).value : ℚ)
    if first = 0 then none
    else some (roundTo 1 ((lastV - first) / first * 100))

/-- The `enrolment_growth_yoy` entry of `get_trends`, over the monthly
enrolment counts: trailing-12 mean of the last 24 rows versus the first-12
mean of those rows.  When the baseline mean is zero the numpy division
yields a non-finite float (no fixed default); that outcome is `none`. -/
def trendsEnrolGrowth (enrol : List ℚ) : Option ℚ :=
  let t24 := enrol.drop (enrol.length - 24)
  let recent := listMean (t24.drop (t24.length - 12))
  let baseline := listMean (t24.take 12)
  if baseline = 0 then none
  else some (roundTo 1 ((recent - baseline) / baseline * 100))

/-- Values of the points of `ts` whose calendar month is `m`
(the `monthly_avg[month]` accumulator of `_calculate_seasonal_patterns`
holds their sum). -/
def monthValues (ts : List UPoint) (m : ℕ) : List ℚ :=
  (ts.filter fun t => decide (t.month = m)).map fun t => (t.value : ℚ)

/-- The `monthly_count[month]` accumulator of
`_calculate_seasonal_patterns`. -/
def monthCount (ts : List UPoint) (m : ℕ) : ℕ :=
  (ts.filter fun t => decide (t.month = m)).length

/-- The grand mean `np.mean([t.value for t in ts])`. -/
def overallAvg (ts : List UPoint) : ℚ :=
  listMean (ts.map fun t => (t.value : ℚ))

/-- The seasonal index of month `m` before display rounding:
`monthly_avg[m] / monthly_count[m] / overall_avg`. -/
def rawIndex (ts : List UPoint) (m : ℕ) : ℚ :=
  (monthValues ts m).sum / (monthCount ts m : ℚ) / overallAvg ts

/-- `_calculate_seasonal_patterns`: one `(month, index)` pair per calendar
month having at least one observation, index rounded to 3 decimals, months
ascending (`for m in range(1, 13) if m in monthly_avg`). -/
def calcSeasonalPatterns (ts : List UPoint) : List (ℕ × ℚ) :=
  if ts = [] then []
  else
    ((List.range' 1 12).filter fun m => decide (0 < monthCount ts m)).map
      fun m => (m, roundTo 3 (rawIndex ts m))

/-! ## Synthetic enrolment generator (`data_repository.py`,
`_generate_enrolment_data`)

The generator runs over the 60 months 2020-01 .. 2024-12.  Two sources of
non-determinism / transcendence are parameters: `c i` models
`np.cos(2 * np.pi * (month_i - 1) / 12)` (always in `[-1, 1]`) and `r i`
models the random factor `1 + np.random.normal(0, 0.05)` drawn for month
`i`. -/

/-- `seasonal_factor = 1 + 0.15 * cos(...)`. -/
def seasonalFactorG (c : ℕ → ℚ) (i : ℕ) : ℚ :=
  1 + 15 / 100 * c i

/-- `year_factor = 1 + max(0.02, 0.15 - 0.03 * (year - 2020))`; month index
`i` has `year - 2020 = i / 12`. -/
def yearFactorG (i : ℕ) : ℚ :=
  1 + max (2 / 100) (15 / 100 - 3 / 100 * ((i / 12 : ℕ) : ℚ))

/-- `monthly_enrolments = int(base_monthly * seasonal * year * random)` with
`base_monthly = 12_000_000`. -/
def enrolValue (c r : ℕ → ℚ) (i : ℕ) : ℤ :=
  pyInt (12000000 * seasonalFactorG c i * yearFactorG i * r i)

/-- The running `cumulative` value recorded with row `i` (the base
`1_200_000_000` plus all monthly values up to and including month `i`). -/
def enrolCumul (c r : ℕ → ℚ) (i : ℕ) : ℤ :=
  1200000000 + ((List.range (i + 1)).map (enrolValue c r)).sum

/-- The `yoy_growth` column: `pct_change(periods=12) * 100` then
`fillna(0)`, so the first 12 rows are 0.  (For a zero 12-months-earlier
value pandas produces a non-finite float; that branch returns 0 here and is
exercised by no theorem.) -/
def enrolYoy (c r : ℕ → ℚ) (i : ℕ) : ℚ :=
  if i < 12 then 0
  else
    let prev : ℚ := (enrolValue c r (i - 12) : ℚ)
    if prev = 0 then 0
    else ((enrolValue c r i : ℚ) - prev) / prev * 100

/-- `_generate_enrolment_data`: the 60 synthetic monthly rows. -/
def genEnrolmentData (c r : ℕ → ℚ) : List TimePoint :=
  (List.range 60).map fun i =>
    { year := 2020 + i / 12
      month := i % 12 + 1
      value := enrolValue c r i
      cumulative := enrolCumul c r i
      yoyGrowth := enrolYoy c r i }

/-- Dummy row used as the `getD` default when indexing generated data. -/
def tpDefault : TimePoint :=
  { year := 0, month := 0, value := 0, cumulative := 0, yoyGrowth := 0 }

/-! ## Concrete inputs used by witnesses and counterexamples -/

/-- A constant 12-month series (also used as its own trend line, for which
`linregress` returns slope 0 and intercept 100). -/
def cv12 : List ℚ := List.replicate 12 100

/-- A zero 12-slot seasonal vector. -/
def zeros12 : List ℚ := List.replicate 12 0

/-- An 11-point history (one short of the forecasting minimum). -/
def ts11 : List UPoint :=
  (List.range 11).map fun i => { year := 2023, month := i % 12 + 1, value := 100 }

/-- A 12-point history (exactly the forecasting minimum). -/
def ts12 : List UPoint :=
  (List.range 12).map fun i => { year := 2023, month := i + 1, value := 100 + i }

/-- Cosine slot values for the generator counterexample: all zero. -/
def cx5c : ℕ → ℚ := fun _ => 0

/-- Random factors for the generator counterexample: month 1 draws a
negative random factor (`1 + normal` sample below `-1`), all others 1. -/
def cx5r : ℕ → ℚ := fun i => if i = 1 then -1 else 1

/-- A two-point series with positive values whose January index rounds to
zero at 3 decimals. -/
def cx6ts : List UPoint :=
  [{ year := 2023, month := 1, value := 1 },
   { year := 2023, month := 2, value := 10000000 }]

/-- Three top-5 states with update rates 0.11, 0.12 and 0.15: the first two
fill Detector 2's cap of two results before the 0.15 state is scanned. -/
def cx7states : List StateRec :=
  [{ name := "A", code := "AA", totalEnrolments := 300, monthly := 0, yoy := 0,
     updateRate := 11 / 100, urbanPct := 0 },
   { name := "B", code := "BB", totalEnrolments := 200, monthly := 0, yoy := 0,
     updateRate := 12 / 100, urbanPct := 0 },
   { name := "C", code := "CC", totalEnrolments := 100, monthly := 0, yoy := 0,
     updateRate := 15 / 100, urbanPct := 0 }]

/-- A single top-5 state with update rate exactly 0.15 and nothing scanned
before it. -/
def w7kerala : StateRec :=
  { name := "Kerala", code := "KL", totalEnrolments := 38000000,
    monthly := 304000, yoy := 8, updateRate := 15 / 100, urbanPct := 1 / 2 }

/-- Repository state list containing only `w7kerala`. -/
def w7states : List StateRec := [w7kerala]

/-- Two states above the 15% YoY growth threshold: only the first is named
by the single surge alert. -/
def cx8states : List StateRec :=
  [{ name := "Alpha", code := "AA", totalEnrolments := 0, monthly := 0,
     yoy := 20, updateRate := 0, urbanPct := 0 },
   { name := "Beta", code := "BB", totalEnrolments := 0, monthly := 0,
     yoy := 30, updateRate := 0, urbanPct := 0 }]

/-- One metro state that is both high-growth and high-volume, so both alert
rules fire on it. -/
def w8delhi : StateRec :=
  { name := "Delhi", code := "DL", totalEnrolments := 22000000,
    monthly := 2000000, yoy := 20, updateRate := 0, urbanPct := 0 }

/-- Repository state list containing only `w8delhi`. -/
def w8states : List StateRec := [w8delhi]

/-- A two-point update series whose first value is zero (the unguarded
zero baseline). -/
def cx4ts : List UPoint :=
  [{ year := 2023, month := 1, value := 0 },
   { year := 2023, month := 2, value := 5 }]

/-- A one-point update series with a nonzero baseline. -/
def w4ts : List UPoint :=
  [{ year := 2023, month := 1, value := 5 }]

/-! ## General lemmas -/

theorem pyInt_of_nonneg {q : ℚ} (h : 0 ≤ q) : pyInt q = ⌊q⌋ :=
  if_pos h

theorem pyInt_max_nonneg (q : ℚ) : 0 ≤ pyInt (max 0 q) := by
  rw [pyInt_of_nonneg (le_max_left 0 q)]
  exact Int.floor_nonneg.mpr (le_max_left 0 q)

theorem pyInt_max_mono {a b : ℚ} (h : a ≤ b) :
    pyInt (max 0 a) ≤ pyInt (max 0 b) := by
  rw [pyInt_of_nonneg (le_max_left 0 a), pyInt_of_nonneg (le_max_left 0 b)]
  exact Int.floor_le_floor (max_le_max le_rfl h)

theorem pyInt_nonneg {q : ℚ} (h : 0 ≤ q) : 0 ≤ pyInt q := by
  rw [pyInt_of_nonneg h]
  exact Int.floor_nonneg.mpr h

theorem round_monoQ {a b : ℚ} (h : a ≤ b) : round a ≤ round b := by
  rw [round_eq, round_eq]
  exact Int.floor_le_floor (by linarith)

theorem roundTo_nonneg (k : ℕ) {q : ℚ} (h : 0 ≤ q) : 0 ≤ roundTo k q := by
  unfold roundTo
  have h1 : (0 : ℤ) ≤ round (q * (10 : ℚ) ^ k) := by
    have := round_monoQ (mul_nonneg h (by positivity : (0 : ℚ) ≤ (10 : ℚ) ^ k))
    simpa using this
  have h2 : (0 : ℚ) ≤ ((round (q * (10 : ℚ) ^ k) : ℤ) : ℚ) := by
    exact_mod_cast h1
  exact div_nonneg h2 (by positivity)

theorem roundTo_le_int (k : ℕ) {q : ℚ} {z : ℤ} (h : q ≤ (z : ℚ)) :
    roundTo k q ≤ (z : ℚ) := by
  unfold roundTo
  have h1 : round (q * (10 : ℚ) ^ k) ≤ round (((z * 10 ^ k : ℤ) : ℚ)) := by
    apply round_monoQ
    push_cast
    have hp : (0 : ℚ) ≤ (10 : ℚ) ^ k := by positivity
    nlinarith
  rw [round_intCast] at h1
  rw [div_le_iff₀ (by positivity : (0 : ℚ) < (10 : ℚ) ^ k)]
  calc ((round (q * (10 : ℚ) ^ k) : ℤ) : ℚ) ≤ ((z * 10 ^ k : ℤ) : ℚ) := by
        exact_mod_cast h1
    _ = (z : ℚ) * (10 : ℚ) ^ k := by push_cast; ring

theorem ciMult_nonneg (i : ℕ) : 0 ≤ ciMult i := by
  unfold ciMult
  positivity

theorem ciMult_strictMono (i : ℕ) : ciMult i < ciMult (i + 1) := by
  unfold ciMult
  push_cast
  nlinarith [sq_nonneg ((i : ℚ))]

/-! ## C1: forecast data-sufficiency guard -/

/-- C1: `generate_forecast` with fewer than 12 historical points returns the
explicit insufficient-data error result (no partial forecast output); with
at least 12 points it returns a well-formed result whose forecast list has
length equal to the configured horizon (default 6). -/
theorem generateForecast_guard (ts : List UPoint) (s : ℚ) (m0 horizon : ℕ) :
    (ts.length < 12 →
      generateForecast ts s m0 horizon = ForecastResult.insufficient) ∧
    (12 ≤ ts.length →
      ∃ hist fc mets n,
        generateForecast ts s m0 horizon = ForecastResult.ok hist fc mets n ∧
        fc.length = horizon) := by
  constructor
  · intro h
    simp only [generateForecast, if_pos h]
  · intro h
    unfold generateForecast
    rw [if_neg (Nat.not_lt.mpr h)]
    exact ⟨_, _, _, _, rfl, by simp [forecastWithConfidence]⟩

/-- Witness for C1 at concrete inputs: 11 points give the error result, 12
points give a forecast of the default horizon length 6. -/
theorem generateForecast_guard_witness :
    (generateForecast ts11 1 1 6 = ForecastResult.insufficient) ∧
    (∃ hist fc mets n,
      generateForecast ts12 1 1 6 = ForecastResult.ok hist fc mets n ∧
      fc.length = 6) :=
  ⟨(generateForecast_guard ts11 1 1 6).1 (by decide),
   (generateForecast_guard ts12 1 1 6).2 (by decide)⟩

/-! ## C2: forecast confidence-interval invariants -/

/-- C2 (amended): for every residual standard deviation `s ≥ 0`, every
produced `ForecastPoint` satisfies `0 ≤ lower ≤ predicted ≤ upper`; and for
`s > 0` the pre-truncation half-width `1.96 * (1 + 0.1 i) * s` strictly
increases with the step index.  (After the zero clamp and the `int(...)`
truncation that build the reported `lower`/`upper` the integer width need
not strictly increase — see the counterexample.) -/
theorem forecast_interval_shape (values trend seasonal : List ℚ) (s : ℚ)
    (m0 horizon : ℕ) (hs : 0 ≤ s) :
    (∀ fp ∈ forecastWithConfidence values trend seasonal s m0 horizon,
      0 ≤ fp.lower ∧ fp.lower ≤ fp.predicted ∧ fp.predicted ≤ fp.upper) ∧
    (0 < s → ∀ i : ℕ, ciMult i * s < ciMult (i + 1) * s) := by
  constructor
  · intro fp hfp
    simp only [forecastWithConfidence, List.mem_map, List.mem_range] at hfp
    obtain ⟨k, hk, rfl⟩ := hfp
    have hcs : 0 ≤ ciMult (k + 1) * s := mul_nonneg (ciMult_nonneg _) hs
    refine ⟨pyInt_max_nonneg _, pyInt_max_mono (by linarith),
      pyInt_max_mono (by linarith)⟩
  · intro hs' i
    exact mul_lt_mul_of_pos_right (ciMult_strictMono i) hs'

/-- Witness for C2's theorem at a concrete instance (`s = 1`). -/
theorem forecast_interval_shape_witness :
    (∀ fp ∈ forecastWithConfidence cv12 cv12 zeros12 1 1 6,
      0 ≤ fp.lower ∧ fp.lower ≤ fp.predicted ∧ fp.predicted ≤ fp.upper) ∧
    (0 < (1 : ℚ) → ∀ i : ℕ, ciMult i * 1 < ciMult (i + 1) * 1) :=
  forecast_interval_shape cv12 cv12 zeros12 1 1 6 (by norm_num)

/-! ## C3: anomaly merge and rank ordering -/

/-- C3: `detect_all_anomalies` returns a permutation of the concatenation of
the four detectors' outputs, sorted ascending by
`(severity_rank, detected_at)`; consequently every earlier anomaly has a
severity rank less than or equal to every later one. -/
theorem detectAllAnomalies_sorted (ts : List UPoint) (σe : ℚ)
    (uts : List UpdateTypeRec) (states : List StateRec)
    (σu malePct femalePct : ℚ) (now : ℕ) :
    (detectAllAnomalies ts σe uts states σu malePct femalePct now).Perm
      (detectEnrolment ts σe states now ++ detectUpdate uts states now ++
        detectGeographic states σu now ++
        detectDemographic malePct femalePct now) ∧
    List.Pairwise (fun a b => anomalyKeyLE a b = true)
      (detectAllAnomalies ts σe uts states σu malePct femalePct now) ∧
    List.Pairwise (fun a b => sevRank a.severity ≤ sevRank b.severity)
      (detectAllAnomalies ts σe uts states σu malePct femalePct now) := by
  have htrans : ∀ a b c : Anomaly, anomalyKeyLE a b = true →
      anomalyKeyLE b c = true → anomalyKeyLE a c = true := by
    intro a b c hab hbc
    simp only [anomalyKeyLE, decide_eq_true_eq] at hab hbc ⊢
    omega
  have htotal : ∀ a b : Anomaly, (anomalyKeyLE a b || anomalyKeyLE b a) = true := by
    intro a b
    simp only [anomalyKeyLE, Bool.or_eq_true, decide_eq_true_eq]
    omega
  refine ⟨List.mergeSort_perm _ _, List.sorted_mergeSort htrans htotal _, ?_⟩
  have h := List.sorted_mergeSort htrans htotal
    (detectEnrolment ts σe states now ++ detectUpdate uts states now ++
      detectGeographic states σu now ++
      detectDemographic malePct femalePct now)
  exact h.imp fun hab => by
    simp only [anomalyKeyLE, decide_eq_true_eq] at hab
    omega

/-! ## C10: per-detector and total result caps -/

/-- C10: the z-score detector yields at most 3 anomalies, the update-type
detector at most 2, the geographic detector at most 2, the demographic
detector at most 1, and a single `detect_all_anomalies` call returns at most
8 anomalies. -/
theorem detector_caps (ts : List UPoint) (σe : ℚ)
    (uts : List UpdateTypeRec) (states : List StateRec)
    (σu malePct femalePct : ℚ) (now : ℕ) :
    (detectEnrolment ts σe states now).length ≤ 3 ∧
    (detectUpdate uts states now).length ≤ 2 ∧
    (detectGeographic states σu now).length ≤ 2 ∧
    (detectDemographic malePct femalePct now).length ≤ 1 ∧
    (detectAllAnomalies ts σe uts states σu malePct femalePct now).length ≤ 8 := by
  have h1 : (detectEnrolment ts σe states now).length ≤ 3 := by
    unfold detectEnrolment
    split
    · simp
    · exact List.length_take_le 3 _
  have h2 : (detectUpdate uts states now).length ≤ 2 :=
    List.length_take_le 2 _
  have h3 : (detectGeographic states σu now).length ≤ 2 :=
    List.length_take_le 2 _
  have h4 : (detectDemographic malePct femalePct now).length ≤ 1 := by
    unfold detectDemographic
    split <;> simp
  refine ⟨h1, h2, h3, h4, ?_⟩
  unfold detectAllAnomalies
  rw [(List.mergeSort_perm _ anomalyKeyLE).length_eq]
  simp only [List.length_append]
  omega

/-! ## C8: overview alert rules -/

/-- C8 (amended): when at least one state exceeds 15% YoY growth, the alert
list opens with a single info-level surge alert naming the first such state
(later qualifying states are not named); when at least one metro state
(DL/MH/KA/TN) exceeds 1,000,000 monthly enrolments, the alert list ends
with a single high-severity capacity alert naming the first such metro
state; the two rules are independent and non-exclusive, each contributing
exactly one alert when its condition holds, surge before capacity. -/
theorem generateAlerts_shape (states : List StateRec) :
    (∀ s : StateRec,
      (states.filter fun t => decide (15 < t.yoy)).head? = some s →
      (generateAlerts states).head? = some (surgeAlert s)) ∧
    (∀ s : StateRec,
      ((states.filter fun t => decide (t.code ∈ metroCodes)).filter
        fun t => decide (1000000 < t.monthly)).head? = some s →
      (generateAlerts states).getLast? = some (capacityAlert s)) ∧
    (generateAlerts states).length =
      ((if (states.filter fun t => decide (15 < t.yoy)).head? = none
          then 0 else 1) +
        (if ((states.filter fun t => decide (t.code ∈ metroCodes)).filter
            fun t => decide (1000000 < t.monthly)).head? = none
          then 0 else 1)) := by
  simp only [generateAlerts]
  rcases hg : (states.filter fun t => decide (15 < t.yoy)).head? with _ | s1 <;>
    rcases hv : ((states.filter fun t => decide (t.code ∈ metroCodes)).filter
        fun t => decide (1000000 < t.monthly)).head? with _ | s2 <;>
      rw [hg, hv] <;>
        simp [List.getLast?_concat]

/-! ## C4: division guards in growth-rate computations -/

/-- C4 (amended): the empty-series guards hold — `growth_rate` returns the
fixed default 0 on an empty update series, and both growth computations
return a finite value whenever their baseline is nonzero — but a zero
baseline is not guarded (see the counterexample). -/
theorem growth_guards (ts : List UPoint) (enrol : List ℚ) :
    (ts = [] → updateGrowthRate ts = some 0) ∧
    ((ts.headD { year := 0, month := 0, value := 0 }).value ≠ 0 →
      (updateGrowthRate ts).isSome) ∧
    (listMean ((enrol.drop (enrol.length - 24)).take 12) ≠ 0 →
      (trendsEnrolGrowth enrol).isSome) := by
  refine ⟨?_, ?_, ?_⟩
  · intro h
    subst h
    rfl
  · intro h
    unfold updateGrowthRate
    split
    · simp
    · rw [if_neg (by exact_mod_cast h)]
      simp
  · intro h
    unfold trendsEnrolGrowth
    rw [if_neg h]
    simp

/-- Witness for C4's amended theorem at concrete inputs. -/
theorem growth_guards_witness :
    (updateGrowthRate ([] : List UPoint) = some 0) ∧
    (updateGrowthRate w4ts).isSome ∧
    (trendsEnrolGrowth [1]).isSome :=
  ⟨(growth_guards [] []).1 rfl,
   (growth_guards w4ts []).2.1 (by decide),
   (growth_guards [] [1]).2.2 (by norm_num [listMean])⟩

/-! ## C5: synthetic enrolment series invariants -/

theorem genEnrolmentData_getD (c r : ℕ → ℚ) (i : ℕ) (h : i < 60) :
    (genEnrolmentData c r).getD i tpDefault =
      { year := 2020 + i / 12, month := i % 12 + 1, value := enrolValue c r i,
        cumulative := enrolCumul c r i, yoyGrowth := enrolYoy c r i } := by
  unfold genEnrolmentData
  rw [List.getD_eq_getElem?_getD, List.getElem?_map, List.getElem?_range h]
  rfl

theorem enrolCumul_succ (c r : ℕ → ℚ) (i : ℕ) :
    enrolCumul c r (i + 1) = enrolCumul c r i + enrolValue c r (i + 1) := by
  unfold enrolCumul
  rw [List.range_succ, List.map_append, List.sum_append]
  simp
  ring

theorem enrolValue_nonneg (c r : ℕ → ℚ) (i : ℕ) (hc : -1 ≤ c i)
    (hr : 0 ≤ r i) : 0 ≤ enrolValue c r i := by
  unfold enrolValue
  apply pyInt_nonneg
  have hsf : 0 ≤ seasonalFactorG c i := by
    unfold seasonalFactorG
    nlinarith
  have hyf : 0 ≤ yearFactorG i := by
    unfold yearFactorG
    have := le_max_left (2 / 100 : ℚ)
      (15 / 100 - 3 / 100 * ((i / 12 : ℕ) : ℚ))
    linarith
  have h0 : (0 : ℚ) ≤ 12000000 := by norm_num
  exact mul_nonneg (mul_nonneg (mul_nonneg h0 hsf) hyf) hr

/-- C5 (amended): every generated row satisfies
`cumulative[i+1] = cumulative[i] + value[i+1]` and `yoy_growth` is 0 on each
of the first 12 rows, for every noise sequence; the cumulative column step
is non-decreasing whenever the month's random factor is nonnegative (its
cosine slot always lies in `[-1, 1]`) — a random factor below 0, i.e. a
Gaussian draw below `-1`, produces a negative monthly value and breaks
monotonicity (see the counterexample). -/
theorem genEnrolment_invariants (c r : ℕ → ℚ) (i : ℕ) (h : i + 1 < 60) :
    ((genEnrolmentData c r).getD (i + 1) tpDefault).cumulative =
      ((genEnrolmentData c r).getD i tpDefault).cumulative +
        ((genEnrolmentData c r).getD (i + 1) tpDefault).value ∧
    (-1 ≤ c (i + 1) → 0 ≤ r (i + 1) →
      ((genEnrolmentData c r).getD i tpDefault).cumulative ≤
        ((genEnrolmentData c r).getD (i + 1) tpDefault).cumulative) ∧
    (∀ j, j < 12 → ((genEnrolmentData c r).getD j tpDefault).yoyGrowth = 0) := by
  rw [genEnrolmentData_getD c r (i + 1) h,
    genEnrolmentData_getD c r i (by omega)]
  refine ⟨enrolCumul_succ c r i, ?_, ?_⟩
  · intro hc hr
    have hv := enrolValue_nonneg c r (i + 1) hc hr
    rw [enrolCumul_succ c r i]
    dsimp only
    omega
  · intro j hj
    rw [genEnrolmentData_getD c r j (by omega)]
    simp only [enrolYoy, if_pos hj]

/-- Witness for C5's amended theorem with all cosine slots 0, all random
factors 1, at the first row pair. -/
theorem genEnrolment_invariants_witness :
    ((genEnrolmentData (fun _ => 0) (fun _ => 1)).getD 1 tpDefault).cumulative =
      ((genEnrolmentData (fun _ => 0) (fun _ => 1)).getD 0 tpDefault).cumulative +
        ((genEnrolmentData (fun _ => 0) (fun _ => 1)).getD 1 tpDefault).value ∧
    ((genEnrolmentData (fun _ => 0) (fun _ => 1)).getD 0 tpDefault).cumulative ≤
      ((genEnrolmentData (fun _ => 0) (fun _ => 1)).getD 1 tpDefault).cumulative ∧
    (∀ j, j < 12 →
      ((genEnrolmentData (fun _ => 0) (fun _ => 1)).getD j tpDefault).yoyGrowth = 0) := by
  have h := genEnrolment_invariants (fun _ => 0) (fun _ => 1) 0 (by norm_num)
  exact ⟨h.1, h.2.1 (by norm_num) (by norm_num), h.2.2⟩

/-! ## C7: Detector 2 and the update-rate rule -/

theorem filterMap_get?_of_take {α β : Type} (f : α → Option β) :
    ∀ (l : List α) (k : ℕ) (a : α) (y : β),
      l.get? k = some a → f a = some y →
      (l.filterMap f).get? ((l.take k).filterMap f).length = some y := by
  intro l
  induction l with
  | nil =>
    intro k a y h _
    simp at h
  | cons x xs ih =>
    intro k a y hget hfy
    cases k with
    | zero =>
      rw [List.get?_cons_zero] at hget
      injection hget with hax
      subst hax
      simp [List.filterMap_cons, hfy]
    | succ k =>
      rw [List.get?_cons_succ] at hget
      have h2 := ih k a y hget hfy
      rw [List.take_succ_cons]
      cases hfx : f x with
      | none => simpa [List.filterMap_cons, hfx] using h2
      | some b => simpa [List.filterMap_cons, hfx] using h2

/-- C7 (amended): a top-5-by-volume state with `update_rate = 0.15` appears
in Detector 2's output — as a low-severity anomaly naming that state whose
evidence carries the rate rounded to 3 decimals — provided at most one
anomaly is generated before it in the detector's scan order (Address-share
flags plus earlier top-5 states above the 0.10 threshold); otherwise the
cap to 2 results can evict it (see the counterexample). -/
theorem detectUpdate_flags_state (uts : List UpdateTypeRec)
    (states : List StateRec) (now : ℕ) (k : ℕ) (s : StateRec)
    (hk : (states.take 5).get? k = some s)
    (hrate : s.updateRate = 15 / 100)
    (hcap : (addressAnomalies uts now).length +
      (stateUpdateAnomalies ((states.take 5).take k) now).length ≤ 1) :
    ∃ a ∈ detectUpdate uts states now,
      a.severity = Sev.low ∧ a.stateName = s.name ∧
      ("update_rate", roundTo 3 s.updateRate) ∈ a.evidence := by
  have hfs : (if 1 / 10 < s.updateRate then some (mkStateUpdateAnomaly s now)
      else none) = some (mkStateUpdateAnomaly s now) := by
    rw [if_pos]
    rw [hrate]
    norm_num
  have hB := filterMap_get?_of_take
    (fun st => if 1 / 10 < st.updateRate then some (mkStateUpdateAnomaly st now)
      else none) (states.take 5) k s _ hk hfs
  have happ : ((addressAnomalies uts now ++
      stateUpdateAnomalies (states.take 5) now).get?
        ((addressAnomalies uts now).length +
          (stateUpdateAnomalies ((states.take 5).take k) now).length)) =
      some (mkStateUpdateAnomaly s now) := by
    rw [List.get?_append_right (by omega)]
    simpa [stateUpdateAnomalies] using hB
  have htake : (((addressAnomalies uts now ++
      stateUpdateAnomalies (states.take 5) now).take 2).get?
        ((addressAnomalies uts now).length +
          (stateUpdateAnomalies ((states.take 5).take k) now).length)) =
      some (mkStateUpdateAnomaly s now) := by
    rw [List.get?_take (by omega)]
    exact happ
  refine ⟨mkStateUpdateAnomaly s now, List.get?_mem htake, rfl, rfl, ?_⟩
  simp [mkStateUpdateAnomaly]

/-! ## C9: forecast fit metrics -/

/-- C9: the fit metrics are computed against
`fitted = trend + tiled seasonal` over the historical window; R-squared is
`1 - SS_res / SS_tot` clamped to `[0, 1]` (0 when `SS_tot = 0`), and MAPE is
computed only when every historical value is positive (0 otherwise) and is
clamped to at most 20. -/
theorem calcMetrics_rSquared_eq (values trend seasonal : List ℚ) :
    (calcMetrics values trend seasonal).rSquared =
      roundTo 2 (max 0 (min 1
        (if 0 < ssTot values then
          1 - ssRes values (fittedOf trend seasonal values.length) /
            ssTot values
        else 0))) := rfl

theorem calcMetrics_mape_eq (values trend seasonal : List ℚ) :
    (calcMetrics values trend seasonal).mape =
      roundTo 1 (min 20 (max 0
        (if ∀ v ∈ values, 0 < v then
          listMean (List.zipWith (fun v f => |(v - f) / v|) values
            (fittedOf trend seasonal values.length)) * 100
        else 0))) := rfl

theorem calcMetrics_props (values trend seasonal : List ℚ)
    (h12 : 12 ≤ values.length) :
    (0 ≤ (calcMetrics values trend seasonal).rSquared ∧
      (calcMetrics values trend seasonal).rSquared ≤ 1) ∧
    (0 ≤ (calcMetrics values trend seasonal).mape ∧
      (calcMetrics values trend seasonal).mape ≤ 20) ∧
    ((calcMetrics values trend seasonal).rSquared =
      roundTo 2 (max 0 (min 1
        (if 0 < ssTot values then
          1 - ssRes values (fittedOf trend seasonal values.length) /
            ssTot values
        else 0)))) ∧
    (¬(∀ v ∈ values, 0 < v) → (calcMetrics values trend seasonal).mape = 0) := by
  rw [calcMetrics_rSquared_eq, calcMetrics_mape_eq]
  refine ⟨⟨roundTo_nonneg 2 (le_max_left 0 _), ?_⟩,
    ⟨roundTo_nonneg 1 (le_min (by norm_num) (le_max_left 0 _)), ?_⟩, rfl, ?_⟩
  · have h1 : max 0 (min 1 (if 0 < ssTot values then
        1 - ssRes values (fittedOf trend seasonal values.length) /
          ssTot values else 0)) ≤ ((1 : ℤ) : ℚ) := by
      push_cast
      exact max_le (by norm_num) (min_le_left 1 _)
    simpa using roundTo_le_int 2 h1
  · have h1 : min 20 (max 0 (if ∀ v ∈ values, 0 < v then
        listMean (List.zipWith (fun v f => |(v - f) / v|) values
          (fittedOf trend seasonal values.length)) * 100 else 0)) ≤
        ((20 : ℤ) : ℚ) := by
      push_cast
      exact min_le_left 20 _
    simpa using roundTo_le_int 1 h1
  · intro h
    rw [if_neg h]
    norm_num [roundTo]

/-- Witness for C9 at a concrete 12-point instance. -/
theorem calcMetrics_props_witness :
    (0 ≤ (calcMetrics cv12 cv12 zeros12).rSquared ∧
      (calcMetrics cv12 cv12 zeros12).rSquared ≤ 1) ∧
    (0 ≤ (calcMetrics cv12 cv12 zeros12).mape ∧
      (calcMetrics cv12 cv12 zeros12).mape ≤ 20) ∧
    ((calcMetrics cv12 cv12 zeros12).rSquared =
      roundTo 2 (max 0 (min 1
        (if 0 < ssTot cv12 then
          1 - ssRes cv12 (fittedOf cv12 zeros12 cv12.length) / ssTot cv12
        else 0)))) ∧
    (¬(∀ v ∈ cv12, 0 < v) → (calcMetrics cv12 cv12 zeros12).mape = 0) :=
  calcMetrics_props cv12 cv12 zeros12 (by simp [cv12])

/-! ## C6: seasonal-index properties -/

theorem list_sum_map_sub {α : Type} (l : List α) (f g : α → ℚ) :
    (l.map fun m => f m - g m).sum = (l.map f).sum - (l.map g).sum := by
  induction l with
  | nil => simp
  | cons x xs ih =>
    simp only [List.map_cons, List.sum_cons, ih]
    ring

theorem abs_list_sum_le (l : List ℚ) : |l.sum| ≤ (l.map fun x => |x|).sum := by
  induction l with
  | nil => simp
  | cons x xs ih =>
    simp only [List.sum_cons, List.map_cons]
    calc |x + xs.sum| ≤ |x| + |xs.sum| := abs_add _ _
      _ ≤ |x| + (xs.map fun x => |x|).sum := by linarith

theorem abs_roundTo_sub_le (k : ℕ) (q : ℚ) :
    |roundTo k q - q| ≤ 1 / (2 * (10 : ℚ) ^ k) := by
  have hpos : (0 : ℚ) < (10 : ℚ) ^ k := by positivity
  have h := abs_sub_round (q * (10 : ℚ) ^ k)
  have heq : roundTo k q - q =
      -((q * (10 : ℚ) ^ k - (round (q * (10 : ℚ) ^ k) : ℚ)) / (10 : ℚ) ^ k) := by
    rw [roundTo]
    field_simp
    ring
  rw [heq, abs_neg, abs_div, abs_of_pos hpos]
  rw [div_le_div_iff₀ hpos (by positivity)]
  calc |q * (10 : ℚ) ^ k - (round (q * (10 : ℚ) ^ k) : ℚ)| * (2 * (10 : ℚ) ^ k)
      ≤ (1 / 2) * (2 * (10 : ℚ) ^ k) := by
        apply mul_le_mul_of_nonneg_right h
        positivity
    _ = 1 * (10 : ℚ) ^ k := by ring

theorem sum_map_ite_insert (ms : List ℕ) (a : ℕ) (x : ℚ) (g : ℕ → ℚ)
    (hnd : ms.Nodup) (ha : a ∈ ms) :
    (ms.map fun m => if a = m then x + g m else g m).sum = x + (ms.map g).sum := by
  induction ms with
  | nil => cases ha
  | cons m ms ih =>
    simp only [List.map_cons, List.sum_cons]
    rcases List.mem_cons.mp ha with rfl | ha'
    · rw [if_pos rfl]
      have hnotin : a ∉ ms := (List.nodup_cons.mp hnd).1
      have hmap : (ms.map fun m => if a = m then x + g m else g m) = ms.map g := by
        apply List.map_congr_left
        intro b hb
        rw [if_neg]
        intro hab
        exact hnotin (hab ▸ hb)
      rw [hmap]
      ring
    · have hne : a ≠ m := by
        rintro rfl
        exact (List.nodup_cons.mp hnd).1 ha'
      rw [if_neg hne, ih (List.nodup_cons.mp hnd).2 ha']
      ring

theorem sum_month_partition (f : UPoint → ℚ) (ts : List UPoint)
    (h : ∀ t ∈ ts, t.month ∈ List.range' 1 12) :
    ((List.range' 1 12).map fun m =>
      ((ts.filter fun t => decide (t.month = m)).map f).sum).sum
    = (ts.map f).sum := by
  induction ts with
  | nil => simp
  | cons t rest ih =>
    have hrest := fun u hu => h u (List.mem_cons_of_mem t hu)
    have ht : t.month ∈ List.range' 1 12 := h t (List.mem_cons_self _ _)
    have hpt : ∀ m : ℕ,
        (((t :: rest).filter fun u => decide (u.month = m)).map f).sum =
        (if t.month = m then
          f t + ((rest.filter fun u => decide (u.month = m)).map f).sum
        else ((rest.filter fun u => decide (u.month = m)).map f).sum) := by
      intro m
      rw [List.filter_cons]
      by_cases hm : t.month = m
      · simp [hm]
      · simp [hm]
    have hmapeq : ((List.range' 1 12).map fun m =>
        (((t :: rest).filter fun u => decide (u.month = m)).map f).sum) =
        ((List.range' 1 12).map fun m =>
          if t.month = m then
            f t + ((rest.filter fun u => decide (u.month = m)).map f).sum
          else ((rest.filter fun u => decide (u.month = m)).map f).sum) := by
      apply List.map_congr_left
      intro m _
      exact hpt m
    rw [hmapeq, sum_map_ite_insert _ _ _ _ (List.nodup_range' _ _) ht, ih hrest]
    simp

theorem sum_map_filter_of_zero (l : List ℕ) (p : ℕ → Bool) (g : ℕ → ℚ)
    (h : ∀ m ∈ l, p m = false → g m = 0) :
    ((l.filter p).map g).sum = (l.map g).sum := by
  induction l with
  | nil => simp
  | cons m ms ih =>
    have hms := fun u hu hpu => h u (List.mem_cons_of_mem m hu) hpu
    rw [List.filter_cons]
    by_cases hm : p m
    · simp only [hm, if_true, List.map_cons, List.sum_cons, ih hms]
    · have h0 : g m = 0 := h m (List.mem_cons_self _ _) (by simpa using hm)
      simp only [hm, if_false, ih hms, List.map_cons, List.sum_cons, h0,
        Bool.false_eq_true]
      ring

theorem list_sum_ones {α : Type} (l : List α) :
    (l.map fun _ => (1 : ℚ)).sum = (l.length : ℚ) := by
  induction l with
  | nil => simp
  | cons x xs ih =>
    simp only [List.map_cons, List.sum_cons, ih, List.length_cons]
    push_cast
    ring

/-- C6 (amended): on a non-empty series with positive values (calendar
months 1..12, as date parsing guarantees), an index is emitted exactly for
the months with at least one observation; each pre-rounding index is
strictly positive and the emitted value (rounded to 3 decimals) is
nonnegative — but it can round down to exactly 0, so strict positivity of
the emitted value fails (see the counterexample); the frequency-weighted
average of the pre-rounding indices equals 1 exactly, and that of the
emitted values is within 1/2000 of 1. -/
theorem seasonal_index_props (ts : List UPoint) (hne : ts ≠ [])
    (hpos : ∀ t ∈ ts, 0 < t.value)
    (hmon : ∀ t ∈ ts, t.month ∈ List.range' 1 12) :
    (∀ p ∈ calcSeasonalPatterns ts, 0 < monthCount ts p.1) ∧
    (∀ p ∈ calcSeasonalPatterns ts, 0 < rawIndex ts p.1 ∧ 0 ≤ p.2) ∧
    ((calcSeasonalPatterns ts).map fun p =>
      (monthCount ts p.1 : ℚ) * rawIndex ts p.1).sum = (ts.length : ℚ) ∧
    |((calcSeasonalPatterns ts).map fun p =>
      (monthCount ts p.1 : ℚ) * p.2).sum - (ts.length : ℚ)|
      ≤ (ts.length : ℚ) / 2000 := by
  have hP : calcSeasonalPatterns ts =
      ((List.range' 1 12).filter fun m => decide (0 < monthCount ts m)).map
        (fun m => (m, roundTo 3 (rawIndex ts m))) := by
    rw [calcSeasonalPatterns, if_neg hne]
  set E := (List.range' 1 12).filter fun m => decide (0 < monthCount ts m)
    with hE
  have hn : 0 < ts.length := List.length_pos.mpr hne
  have hT : 0 < (ts.map fun t => (t.value : ℚ)).sum := by
    apply List.sum_pos
    · intro x hx
      obtain ⟨t, ht, rfl⟩ := List.mem_map.mp hx
      exact_mod_cast hpos t ht
    · simpa using hne
  have havg : 0 < overallAvg ts := by
    unfold overallAvg listMean
    apply div_pos hT
    simpa using hn
  have hfilter_nil : ∀ m : ℕ, ¬ 0 < monthCount ts m →
      (ts.filter fun t => decide (t.month = m)) = [] := by
    intro m hc0
    have h0 : monthCount ts m = 0 := Nat.eq_zero_of_not_pos hc0
    unfold monthCount at h0
    exact List.length_eq_zero.mp h0
  have hS : ∀ m, 0 < monthCount ts m → 0 < (monthValues ts m).sum := by
    intro m hc
    apply List.sum_pos
    · intro x hx
      obtain ⟨t, ht, rfl⟩ := List.mem_map.mp hx
      exact_mod_cast hpos t (List.mem_filter.mp ht).1
    · intro hemp
      have hf : (ts.filter fun t => decide (t.month = m)) = [] :=
        List.map_eq_nil_iff.mp hemp
      have : monthCount ts m = 0 := by
        unfold monthCount
        rw [hf]
        rfl
      omega
  have hraw : ∀ m, 0 < monthCount ts m → 0 < rawIndex ts m := by
    intro m hc
    unfold rawIndex
    exact div_pos (div_pos (hS m hc) (by exact_mod_cast hc)) havg
  have hmemE : ∀ m ∈ E, 0 < monthCount ts m := by
    intro m hm
    exact of_decide_eq_true (List.mem_filter.mp hm).2
  have hcore : (E.map fun m => (monthCount ts m : ℚ) * rawIndex ts m).sum
      = (ts.length : ℚ) := by
    have h1 : (E.map fun m => (monthCount ts m : ℚ) * rawIndex ts m)
        = E.map fun m => (monthValues ts m).sum / overallAvg ts := by
      apply List.map_congr_left
      intro m hm
      have hcne : ((monthCount ts m : ℚ)) ≠ 0 := by
        exact_mod_cast (hmemE m hm).ne'
      unfold rawIndex
      field_simp
      ring
    have h2 : (E.map fun m => (monthValues ts m).sum / overallAvg ts).sum
        = ((List.range' 1 12).map fun m =>
            (monthValues ts m).sum / overallAvg ts).sum := by
      rw [hE]
      apply sum_map_filter_of_zero
      intro m _ hfalse
      have hc0 : ¬ 0 < monthCount ts m := by simpa using hfalse
      unfold monthValues
      rw [hfilter_nil m hc0]
      simp
    have h3 : ((List.range' 1 12).map fun m =>
        (monthValues ts m).sum / overallAvg ts).sum
        = ((List.range' 1 12).map fun m => (monthValues ts m).sum).sum /
            overallAvg ts := by
      simp only [div_eq_mul_inv]
      rw [List.sum_map_mul_right]
    have h4 : ((List.range' 1 12).map fun m => (monthValues ts m).sum).sum
        = (ts.map fun t => (t.value : ℚ)).sum := by
      unfold monthValues
      exact sum_month_partition (fun t => (t.value : ℚ)) ts hmon
    rw [h1, h2, h3, h4]
    unfold overallAvg listMean
    rw [List.length_map]
    rw [div_div_eq_mul_div, mul_comm, mul_div_assoc,
      div_self hT.ne', mul_one]
  have hcnt : (E.map fun m => (monthCount ts m : ℚ)).sum = (ts.length : ℚ) := by
    have e1 : (E.map fun m => (monthCount ts m : ℚ)).sum
        = ((List.range' 1 12).map fun m => (monthCount ts m : ℚ)).sum := by
      rw [hE]
      apply sum_map_filter_of_zero
      intro m _ hfalse
      have hc0 : ¬ 0 < monthCount ts m := by simpa using hfalse
      have : monthCount ts m = 0 := Nat.eq_zero_of_not_pos hc0
      rw [this]
      simp
    have e2 : ((List.range' 1 12).map fun m => (monthCount ts m : ℚ)).sum
        = (ts.map fun _ => (1 : ℚ)).sum := by
      rw [← sum_month_partition (fun _ => (1 : ℚ)) ts hmon]
      apply congrArg
      apply List.map_congr_left
      intro m _
      rw [list_sum_ones]
      rfl
    rw [e1, e2, list_sum_ones]
  refine ⟨?_, ?_, ?_, ?_⟩
  · intro p hp
    rw [hP] at hp
    obtain ⟨m, hm, rfl⟩ := List.mem_map.mp hp
    exact hmemE m hm
  · intro p hp
    rw [hP] at hp
    obtain ⟨m, hm, rfl⟩ := List.mem_map.mp hp
    exact ⟨hraw m (hmemE m hm),
      roundTo_nonneg 3 (le_of_lt (hraw m (hmemE m hm)))⟩
  · rw [hP, List.map_map]
    simpa [Function.comp] using hcore
  · rw [hP, List.map_map]
    have hgoal : ((fun p : ℕ × ℚ => (monthCount ts p.1 : ℚ) * p.2) ∘
        fun m => (m, roundTo 3 (rawIndex ts m))) =
        fun m => (monthCount ts m : ℚ) * roundTo 3 (rawIndex ts m) := rfl
    rw [hgoal]
    have hW : (E.map fun m =>
        (monthCount ts m : ℚ) * roundTo 3 (rawIndex ts m)).sum -
          (ts.length : ℚ)
        = (E.map fun m => (monthCount ts m : ℚ) *
            (roundTo 3 (rawIndex ts m) - rawIndex ts m)).sum := by
      rw [← hcore, ← list_sum_map_sub]
      apply congrArg
      apply List.map_congr_left
      intro m _
      ring
    rw [hW]
    have habs : |(E.map fun m => (monthCount ts m : ℚ) *
        (roundTo 3 (rawIndex ts m) - rawIndex ts m)).sum|
        ≤ (E.map fun m => (monthCount ts m : ℚ) * (1 / 2000)).sum := by
      calc |(E.map fun m => (monthCount ts m : ℚ) *
            (roundTo 3 (rawIndex ts m) - rawIndex ts m)).sum|
          ≤ ((E.map fun m => (monthCount ts m : ℚ) *
              (roundTo 3 (rawIndex ts m) - rawIndex ts m)).map
                fun x => |x|).sum := abs_list_sum_le _
        _ = (E.map fun m => |(monthCount ts m : ℚ) *
              (roundTo 3 (rawIndex ts m) - rawIndex ts m)|).sum := by
            rw [List.map_map]
            rfl
        _ ≤ (E.map fun m => (monthCount ts m : ℚ) * (1 / 2000)).sum := by
            apply List.sum_le_sum
            intro m _
            rw [abs_mul, abs_of_nonneg (by positivity :
              (0 : ℚ) ≤ (monthCount ts m : ℚ))]
            apply mul_le_mul_of_nonneg_left _ (by positivity)
            have := abs_roundTo_sub_le 3 (rawIndex ts m)
            calc |roundTo 3 (rawIndex ts m) - rawIndex ts m|
                ≤ 1 / (2 * (10 : ℚ) ^ (3 : ℕ)) := this
              _ = 1 / 2000 := by norm_num
    calc |(E.map fun m => (monthCount ts m : ℚ) *
          (roundTo 3 (rawIndex ts m) - rawIndex ts m)).sum|
        ≤ (E.map fun m => (monthCount ts m : ℚ) * (1 / 2000)).sum := habs
      _ = (E.map fun m => (monthCount ts m : ℚ)).sum * (1 / 2000) :=
          List.sum_map_mul_right _ _ _
      _ = (ts.length : ℚ) * (1 / 2000) := by rw [hcnt]
      _ = (ts.length : ℚ) / 2000 := by ring

/-! ## Concrete evaluations: counterexamples and remaining witnesses

The rational arithmetic of Batteries is `@[irreducible]`; inside this
section it is made semireducible so the kernel can evaluate the modelled
functions on concrete inputs via `decide`. -/

section ConcreteEvaluations

attribute [local semireducible] Rat.add Rat.sub Rat.mul Rat.inv

set_option maxRecDepth 8000

/-- Counterexample for C2: with the fixed residual standard deviation
`s = 1/100` (and a constant trend), the first two forecast points both have
integer interval width 1, so `width(i+1) > width(i)` fails for the reported
(clamped, truncated) bounds; with the value `s = 0` that
`np.std(values - trend)` actually takes on these inputs, both widths are 0
and strict increase fails as well. -/
theorem forecast_width_not_strict :
    (((forecastWithConfidence cv12 cv12 zeros12 (1 / 100) 1 6).map
      fun fp => fp.upper - fp.lower).getD 0 0 = 1 ∧
    ((forecastWithConfidence cv12 cv12 zeros12 (1 / 100) 1 6).map
      fun fp => fp.upper - fp.lower).getD 1 0 = 1 ∧
    ¬ (((forecastWithConfidence cv12 cv12 zeros12 (1 / 100) 1 6).map
      fun fp => fp.upper - fp.lower).getD 0 0 <
      ((forecastWithConfidence cv12 cv12 zeros12 (1 / 100) 1 6).map
        fun fp => fp.upper - fp.lower).getD 1 0)) ∧
    (((forecastWithConfidence cv12 cv12 zeros12 0 1 6).map
      fun fp => fp.upper - fp.lower).getD 0 0 = 0 ∧
    ¬ (((forecastWithConfidence cv12 cv12 zeros12 0 1 6).map
      fun fp => fp.upper - fp.lower).getD 0 0 <
      ((forecastWithConfidence cv12 cv12 zeros12 0 1 6).map
        fun fp => fp.upper - fp.lower).getD 1 0)) := by
  decide

/-- Counterexample for C4: a zero baseline is not short-circuited to a
fixed default — `growth_rate` raises `ZeroDivisionError` (modelled `none`)
when the first update value is 0, and `get_trends` produces a non-finite
growth figure (modelled `none`) on an all-zero window. -/
theorem growth_zero_baseline_cx :
    updateGrowthRate cx4ts = none ∧
    trendsEnrolGrowth (List.replicate 24 0) = none := by
  decide

/-- Counterexample for C5: a random factor drawn below `-1` (possible under
the unbounded normal noise) makes month 1's value negative, so the
cumulative column strictly decreases from row 0 to row 1. -/
theorem genEnrolment_monotone_cx :
    ((genEnrolmentData cx5c cx5r).getD 1 tpDefault).cumulative <
      ((genEnrolmentData cx5c cx5r).getD 0 tpDefault).cumulative := by
  decide

/-- Counterexample for C6: on a positive-valued series the emitted January
index is exactly 0 after rounding to 3 decimals, refuting
`0 < index[m]` for emitted values. -/
theorem seasonal_zero_index_cx :
    (∀ t ∈ cx6ts, 0 < t.value) ∧ cx6ts ≠ [] ∧
    ((1 : ℕ), (0 : ℚ)) ∈ calcSeasonalPatterns cx6ts := by
  decide

/-- Counterexample for C7: a top-5 state with `update_rate = 0.15` ("C") is
evicted by the cap to 2 results when two earlier top-5 states also exceed
0.10 — no anomaly in Detector 2's output names it. -/
theorem detectUpdate_cap_evicts_cx :
    (∃ s ∈ cx7states.take 5, s.updateRate = 15 / 100) ∧
    ∀ a ∈ detectUpdate [] cx7states 0, a.stateName ≠ "C" := by
  decide

/-- Counterexample for C8: with two states above the 15% growth threshold,
only the first is named by an alert — the second triggers nothing, so "any
state with yoy_growth > 15 triggers an alert naming that state" fails. -/
theorem generateAlerts_first_only_cx :
    ∃ s ∈ cx8states, 15 < s.yoy ∧
      ∀ a ∈ generateAlerts cx8states, a.region ≠ s.name := by
  decide

/-- Witness for C7's amended theorem: with no Address flag and no earlier
qualifying state, the 0.15-rate state is reported. -/
theorem detectUpdate_flags_state_witness :
    ∃ a ∈ detectUpdate [] w7states 0,
      a.severity = Sev.low ∧ a.stateName = w7kerala.name ∧
      ("update_rate", roundTo 3 w7kerala.updateRate) ∈ a.evidence :=
  detectUpdate_flags_state [] w7states 0 0 w7kerala (by decide) (by decide)
    (by decide)

/-- Witness for C8's amended theorem: a metro state that is both
high-growth and high-volume produces the surge alert first and the capacity
alert last. -/
theorem generateAlerts_shape_witness :
    (generateAlerts w8states).head? = some (surgeAlert w8delhi) ∧
    (generateAlerts w8states).getLast? = some (capacityAlert w8delhi) :=
  ⟨(generateAlerts_shape w8states).1 w8delhi (by decide),
   (generateAlerts_shape w8states).2.1 w8delhi (by decide)⟩

/-- Witness for C6's amended theorem at a concrete two-point series. -/
theorem seasonal_index_props_witness :
    (∀ p ∈ calcSeasonalPatterns cx6ts, 0 < monthCount cx6ts p.1) ∧
    (∀ p ∈ calcSeasonalPatterns cx6ts, 0 < rawIndex cx6ts p.1 ∧ 0 ≤ p.2) ∧
    ((calcSeasonalPatterns cx6ts).map fun p =>
      (monthCount cx6ts p.1 : ℚ) * rawIndex cx6ts p.1).sum =
      (cx6ts.length : ℚ) ∧
    |((calcSeasonalPatterns cx6ts).map fun p =>
      (monthCount cx6ts p.1 : ℚ) * p.2).sum - (cx6ts.length : ℚ)|
      ≤ (cx6ts.length : ℚ) / 2000 :=
  seasonal_index_props cx6ts (by decide) (by decide) (by decide)

end ConcreteEvaluations

end Pulse
